import Mathlib

/-!
Verification development for the MUSEO_SANTIBatista server (src/index.js).

The file shallowly embeds the four express route handlers of src/index.js as
pure Lean functions.  All outbound HTTP effects (the Met collection API, the
translation service) are passed in as oracle parameters:

 - the departments call of the home route is an `Except String (List Department)`;
 - the search call of the search route is a function from the request URL to
   `Except String (Option SearchData)` (`Except.error` models an axios throw,
   `Option` models a falsy `response.data`);
 - a per-object fetch is a function `Nat → Except FetchError ArtObject`;
 - a translation call is a function `String → Option String`, where `none`
   models a throw of the translation library and `some t` models a response
   `\x7b translation: t \x7d`.

JavaScript specific behaviour (string truthiness, `parseInt`, `Array.slice`
with clamping, `Math.ceil` of a real quotient, `||` defaulting) is embedded by
the `js*` helpers below, each translated from the corresponding expression in
the source.
-/

/-- Truthiness of a JavaScript value that is either a string or undefined:
`undefined` and the empty string are falsy, every other string is truthy. -/
def jsTruthy : Option String → Bool
  | none => false
  | some s => s != ""

/-- Numeric value of the leading decimal digits of a character list, as used by
JavaScript parseInt once sign and whitespace are consumed; `none` when there is
no leading digit (parseInt returns NaN). -/
def leadingDigitsVal (cs : List Char) : Option Nat :=
  let ds := cs.takeWhile Char.isDigit
  if ds.isEmpty then none
  else some (ds.foldl (fun a c => 10 * a + (c.toNat - 48)) 0)

/-- JavaScript parseInt on a string (radix 10): skip leading whitespace, read
an optional sign and then the longest digit run; `none` models NaN. -/
def parseIntStr (s : String) : Option Int :=
  match s.toList.dropWhile Char.isWhitespace with
  | '-' :: rest => (leadingDigitsVal rest).map (fun n => -(n : Int))
  | '+' :: rest => (leadingDigitsVal rest).map (fun n => (n : Int))
  | cs => (leadingDigitsVal cs).map (fun n => (n : Int))

/-- Embeds the expression `parseInt(req.query.page) || 1` of src/index.js
lines 56 and 154: an absent parameter parses to NaN, and both NaN and 0 are
falsy, so they fall back to 1. -/
def pageOf (raw : Option String) : Int :=
  match raw with
  | none => 1
  | some s =>
    match parseIntStr s with
    | none => 1
    | some n => if n = 0 then 1 else n

/-- Normalisation of one bound of `Array.prototype.slice`: a negative index
counts from the end of the array (clamped at 0), a nonnegative one is clamped
at the length. -/
def jsSliceBound (len : Nat) (i : Int) : Nat :=
  if i < 0 then ((len : Int) + i).toNat else min i.toNat len

/-- JavaScript `xs.slice(start, stop)`: the elements from the normalised start
bound (inclusive) to the normalised stop bound (exclusive). -/
def jsSlice {α : Type} (xs : List α) (start stop : Int) : List α :=
  (xs.take (jsSliceBound xs.length stop)).drop (jsSliceBound xs.length start)

/-- Embeds `Math.ceil(totalObjects / limit)` (src/index.js lines 118 and 187):
the ceiling of the exact rational quotient of the two counts. -/
def jsCeilDiv (total size : Nat) : Int :=
  (((total : ℚ)) / ((size : ℚ))).ceil

/-- Offset of the search route, src/index.js line 58: `(page - 1) * limit`
with `limit = 20`. -/
def searchOffset (page : Int) : Int :=
  (page - 1) * 20

/-- Start index of the results route, src/index.js line 161:
`(page - 1) * itemsPerPage` with `itemsPerPage = 10`. -/
def resultsStart (page : Int) : Int :=
  (page - 1) * 10

/-- A department as consumed from the Met API by the home route. -/
structure Department where
  departmentId : Int
  displayName : String
deriving DecidableEq

/-- An art object as consumed from the Met API; only the fields the server
reads are modelled.  A field holds `none` when it is absent or undefined. -/
structure ArtObject where
  title : Option String
  culture : Option String
  dynasty : Option String
  primaryImage : Option String
  additionalImages : Option (List String)
deriving DecidableEq

/-- Outcome of a failed axios object fetch: an HTTP error response with a
status code, or a network failure without a response. -/
inductive FetchError where
  | httpStatus (code : Nat)
  | network
deriving DecidableEq

/-- Query parameters of a request to the search route; `none` means the
parameter is absent from the request. -/
structure SearchQueryParams where
  departmentId : Option String
  keyword : Option String
  location : Option String
  page : Option String
deriving DecidableEq

/-- Body of a successful search response from the Met API: `objectIDs` is
`none` when the field is not an array, `total` is `none` when absent. -/
structure SearchData where
  objectIDs : Option (List Nat)
  total : Option Nat
deriving DecidableEq

/-- The data handed to the results template by the search route. -/
structure SearchView where
  objects : List ArtObject
  currentPage : Int
  totalPages : Int
  departmentId : String
  keyword : String
  location : String
  message : Option String
deriving DecidableEq

/-- Response of the home route: a rendered department list or a 500. -/
inductive HomeResponse where
  | render (departments : List Department)
  | serverError (msg : String)
deriving DecidableEq

/-- Response of the search route: a rendered results page or a 500. -/
inductive SearchResponse where
  | render (view : SearchView)
  | serverError (msg : String)
deriving DecidableEq

/-- Response of the additional-images route: a JSON array or a 500. -/
inductive JsonResponse where
  | jsonArr (images : List String)
  | serverError (msg : String)
deriving DecidableEq

/-- Response of the results route: a rendered listing page or a 500. -/
inductive ListResponse where
  | render (objects : List ArtObject) (currentPage : Int) (totalPages : Int)
  | serverError (msg : String)
deriving DecidableEq

/-- Translation of one department, src/index.js lines 25-40: on success the
name is replaced by the translation, on a throw the original English name is
returned unchanged. -/
def translateDepartment (tr : String → Option String) (d : Department) : Department :=
  match tr d.displayName with
  | some t => { departmentId := d.departmentId, displayName := t }
  | none => { departmentId := d.departmentId, displayName := d.displayName }

/-- The home route handler, src/index.js lines 18-48. -/
def homeHandler (departmentsCall : Except String (List Department))
    (tr : String → Option String) : HomeResponse :=
  match departmentsCall with
  | .error _ => .serverError "Error al cargar departamentos."
  | .ok departments => .render (departments.map (translateDepartment tr))

/-- The search URL of src/index.js lines 60-70: the base URL always carries
`hasImages=true`, and each filter is appended only when its string is truthy
(present with a non-empty value). -/
def buildSearchUrl (departmentId keyword location : String) : String :=
  let url := "https://collectionapi.metmuseum.org/public/collection/v1/search?hasImages=true"
  let url := if departmentId = "" then url else url ++ "&departmentId=" ++ departmentId
  let url := if keyword = "" then url else url ++ "&q=" ++ keyword
  let url := if location = "" then url else url ++ "&geoLocation=" ++ location
  url

/-- The search URL as the search handler computes it from the raw query
parameters (src/index.js lines 53-55 default absent parameters to the empty
string before the truthiness tests). -/
def searchUrlOfQuery (q : SearchQueryParams) : String :=
  buildSearchUrl (q.departmentId.getD "") (q.keyword.getD "") (q.location.getD "")

/-- Specification-side view of the search URL as a list of query parameters,
to state which parameters the URL carries. -/
def searchUrlParams (departmentId keyword location : String) : List (String × String) :=
  [("hasImages", "true")]
    ++ (if departmentId = "" then [] else [("departmentId", departmentId)])
    ++ (if keyword = "" then [] else [("q", keyword)])
    ++ (if location = "" then [] else [("geoLocation", location)])

/-- Joins query parameter fragments with ampersands. -/
def joinAmp : List String → String
  | [] => ""
  | [s] => s
  | s :: rest => s ++ "&" ++ joinAmp rest

/-- Renders a parameter list into a URL on the Met search endpoint. -/
def renderSearchUrl (params : List (String × String)) : String :=
  "https://collectionapi.metmuseum.org/public/collection/v1/search?"
    ++ joinAmp (params.map (fun kv => kv.1 ++ "=" ++ kv.2))

/-- Translation of one text field inside the per-object task of the search
route (src/index.js lines 95-106): a falsy field is left untouched; a truthy
field is sent to the translation service, and a throw of that call escapes to
the enclosing catch.  The outer `none` models that throw, `some f` the new
field value. -/
def translateField (tr : String → Option String) (field : Option String) :
    Option (Option String) :=
  match field with
  | none => some none
  | some s =>
    if s = "" then some (some s)
    else
      match tr s with
      | none => none
      | some t => some (some t)

/-- The per-id task of the search route, src/index.js lines 89-113: fetch the
object, then translate title, culture and dynasty in that order.  The single
catch turns ANY throw (a failed fetch with any status, or a failed translation
call) into `null`, embedded as `none`. -/
def fetchAndTranslate (fetchObject : Nat → Except FetchError ArtObject)
    (tr : String → Option String) (id : Nat) : Option ArtObject :=
  match fetchObject id with
  | .error _ => none
  | .ok obj =>
    match translateField tr obj.title with
    | none => none
    | some newTitle =>
      match translateField tr obj.culture with
      | none => none
      | some newCulture =>
        match translateField tr obj.dynasty with
        | none => none
        | some newDynasty =>
          some { obj with title := newTitle, culture := newCulture, dynasty := newDynasty }

/-- The filter of src/index.js line 115: keep a result when it is not null and
its primaryImage is truthy. -/
def keepWithImage (result : Option ArtObject) : Option ArtObject :=
  match result with
  | none => none
  | some obj => if jsTruthy obj.primaryImage then some obj else none

/-- The empty-results render of src/index.js lines 77-85. -/
def emptySearchView (page : Int) (departmentId keyword location : String) : SearchView :=
  { objects := []
    currentPage := page
    totalPages := 0
    departmentId := departmentId
    keyword := keyword
    location := location
    message := some "No se encontraron resultados para los filtros aplicados." }

/-- The search route handler, src/index.js lines 51-132. -/
def searchHandler (q : SearchQueryParams)
    (httpGet : String → Except String (Option SearchData))
    (fetchObject : Nat → Except FetchError ArtObject)
    (tr : String → Option String) : SearchResponse :=
  let departmentId := q.departmentId.getD ""
  let keyword := q.keyword.getD ""
  let location := q.location.getD ""
  let page := pageOf q.page
  let offset := searchOffset page
  match httpGet (buildSearchUrl departmentId keyword location) with
  | .error e => .serverError ("Error al recuperar los objetos de arte: " ++ e)
  | .ok none => .render (emptySearchView page departmentId keyword location)
  | .ok (some data) =>
    match data.objectIDs with
    | none => .render (emptySearchView page departmentId keyword location)
    | some allIds =>
      if allIds.length = 0 then
        .render (emptySearchView page departmentId keyword location)
      else
        let objectIDs := jsSlice allIds offset (offset + 20)
        let results := objectIDs.map (fetchAndTranslate fetchObject tr)
        let objects := results.filterMap keepWithImage
        let totalObjects := data.total.getD 0
        let totalPages := jsCeilDiv totalObjects 20
        .render
          { objects := objects
            currentPage := page
            totalPages := totalPages
            departmentId := departmentId
            keyword := keyword
            location := location
            message := none }

/-- The additional-images route handler, src/index.js lines 135-150. -/
def additionalImagesHandler (fetchResult : Except FetchError ArtObject) : JsonResponse :=
  match fetchResult with
  | .error _ => .serverError "Error al recuperar las imágenes adicionales."
  | .ok obj =>
    match obj.additionalImages with
    | some images => if images.length > 0 then .jsonArr images else .jsonArr []
    | none => .jsonArr []

/-- The per-id fetch of the results route, src/index.js lines 168-180: a 404
response yields `null`, any other error is rethrown and escapes the task. -/
def resultsFetchOne (fetchObject : Nat → Except FetchError ArtObject) (id : Nat) :
    Except FetchError (Option ArtObject) :=
  match fetchObject id with
  | .ok obj => .ok (some obj)
  | .error e => if e = .httpStatus 404 then .ok none else .error e

/-- The call at src/index.js line 159.  `getAllObjectsFromAPI` is referenced
there but no definition of it exists anywhere in the repository, so evaluating
the call throws a ReferenceError; the embedding models that evaluation as an
immediate error. -/
def getAllObjectsFromAPI : Except String (List Nat) :=
  .error "ReferenceError: getAllObjectsFromAPI is not defined"

/-- The results route handler, src/index.js lines 153-198, with the value of
the `getAllObjectsFromAPI()` call passed explicitly (the actual call is the
constant `getAllObjectsFromAPI` above).  The batch is collected with
`Promise.all` semantics: one rejected task rejects the whole batch, a resolved
batch keeps input order. -/
def resultsHandler (pageParam : Option String)
    (allObjectsCall : Except String (List Nat))
    (fetchObject : Nat → Except FetchError ArtObject) : ListResponse :=
  let page := pageOf pageParam
  match allObjectsCall with
  | .error _ => .serverError "Error al obtener resultados"
  | .ok allObjects =>
    let startIndex := resultsStart page
    let endIndex := startIndex + 10
    let objectIDs := jsSlice allObjects startIndex endIndex
    match objectIDs.mapM (resultsFetchOne fetchObject) with
    | .error _ => .serverError "Error al obtener resultados"
    | .ok validObjects =>
      let objectsToDisplay := validObjects.reduceOption
      let totalPages := jsCeilDiv allObjects.length 10
      .render objectsToDisplay page totalPages

/-- An explicit execution model for the concurrent fan-out of the search
route: each task writes its result into its own slot, in an arbitrary
completion order given by `schedule`; a slot holds `none` while unwritten. -/
def fanOutSlots {α : Type} (task : Nat → α) (ids : List Nat) (schedule : List Nat) :
    List (Option α) :=
  schedule.foldl
    (fun slots i =>
      match ids[i]? with
      | some theId => slots.set i (some (task theId))
      | none => slots)
    (List.replicate ids.length none)

/-! ### Helper lemmas -/

lemma ratCeil_eq_intCeil (q : ℚ) : q.ceil = ⌈q⌉ := by
  unfold Rat.ceil
  split
  · rename_i h
    have hq : ((q.num : ℚ)) = q := by
      conv_rhs => rw [← Rat.num_div_den q]
      rw [h]
      simp
    conv_rhs => rw [← hq]
    rw [Int.ceil_intCast]
  · rename_i h
    have hfl : ⌊q⌋ = q.num / (q.den : ℤ) := Rat.floor_def
    have h1 : ((⌊q⌋ : ℚ)) ≤ q := Int.floor_le q
    have h2 : q ≠ ((⌊q⌋ : ℚ)) := by
      intro heq
      apply h
      rw [heq]
      exact Rat.den_intCast ⌊q⌋
    have h3 : ((⌊q⌋ : ℚ)) < q := lt_of_le_of_ne h1 (Ne.symm h2)
    have h4 : q < ((⌊q⌋ : ℚ)) + 1 := Int.lt_floor_add_one q
    rw [← hfl, eq_comm, Int.ceil_eq_iff]
    constructor
    · push_cast
      linarith
    · push_cast
      linarith

lemma ceil_natCast_div (t s : Nat) (hs : 0 < s) :
    ⌈(t : ℚ) / (s : ℚ)⌉ = (((t + s - 1) / s : Nat) : Int) := by
  have hsQ : (0 : ℚ) < (s : ℚ) := by exact_mod_cast hs
  have hdm := Nat.div_add_mod (t + s - 1) s
  have hml : (t + s - 1) % s < s := Nat.mod_lt _ hs
  set d := (t + s - 1) / s with hd
  have h1 : t ≤ s * d := by omega
  have h2 : d * s ≤ t + s - 1 := Nat.div_mul_le_self _ _
  have hsum : ((t + s - 1 : Nat) : ℚ) = (t : ℚ) + (s : ℚ) - 1 := by
    have hts : 1 ≤ t + s := by omega
    push_cast [Nat.cast_sub hts]
    ring
  have h2q : (d : ℚ) * (s : ℚ) ≤ (t : ℚ) + (s : ℚ) - 1 := by
    calc (d : ℚ) * (s : ℚ) = ((d * s : Nat) : ℚ) := by push_cast; ring
      _ ≤ ((t + s - 1 : Nat) : ℚ) := by exact_mod_cast h2
      _ = (t : ℚ) + (s : ℚ) - 1 := hsum
  have h1q : (t : ℚ) ≤ (d : ℚ) * (s : ℚ) := by
    calc (t : ℚ) ≤ ((s * d : Nat) : ℚ) := by exact_mod_cast h1
      _ = (d : ℚ) * (s : ℚ) := by push_cast; ring
  rw [Int.ceil_eq_iff]
  constructor
  · push_cast
    rw [lt_div_iff₀ hsQ]
    have expand : ((d : ℚ) - 1) * (s : ℚ) = (d : ℚ) * (s : ℚ) - (s : ℚ) := by ring
    rw [expand]
    linarith
  · push_cast
    rw [div_le_iff₀ hsQ]
    exact h1q

lemma jsCeilDiv_eq (t s : Nat) (hs : 0 < s) :
    jsCeilDiv t s = (((t + s - 1) / s : Nat) : Int) := by
  rw [jsCeilDiv, ratCeil_eq_intCeil, ceil_natCast_div t s hs]

lemma take_min_length {α : Type} (xs : List α) (m : Nat) :
    xs.take (min m xs.length) = xs.take m := by
  rcases le_total m xs.length with h | h
  · rw [min_eq_left h]
  · rw [min_eq_right h, List.take_length, List.take_of_length_le h]

lemma drop_min_length {α : Type} (xs : List α) (m : Nat) :
    xs.drop (min m xs.length) = xs.drop m := by
  rcases le_total m xs.length with h | h
  · rw [min_eq_left h]
  · rw [min_eq_right h, List.drop_length, eq_comm]
    exact List.drop_eq_nil_of_le h

lemma jsSlice_nonneg {α : Type} (xs : List α) (start : Int) (k : Nat) (h : 0 ≤ start) :
    jsSlice xs start (start + (k : Int)) = (xs.drop start.toNat).take k := by
  have hnot : ¬ start < 0 := not_lt.mpr h
  have hnot2 : ¬ start + (k : Int) < 0 := by omega
  have htn : (start + (k : Int)).toNat = start.toNat + k := by omega
  rw [jsSlice, jsSliceBound, jsSliceBound, if_neg hnot, if_neg hnot2, htn, take_min_length]
  rcases le_total start.toNat xs.length with hle | hle
  · rw [min_eq_left hle, List.drop_take]
    congr 1
    omega
  · rw [min_eq_right hle, List.take_of_length_le (by omega), List.drop_length,
      List.drop_eq_nil_of_le hle, List.take_nil]

lemma searchHandler_ok_some (q : SearchQueryParams)
    (httpGet : String → Except String (Option SearchData))
    (fetchObject : Nat → Except FetchError ArtObject) (tr : String → Option String)
    (data : SearchData) (allIds : List Nat)
    (hresp : httpGet (searchUrlOfQuery q) = .ok (some data))
    (hids : data.objectIDs = some allIds)
    (hne : allIds.length ≠ 0) :
    searchHandler q httpGet fetchObject tr = .render
      { objects := ((jsSlice allIds (searchOffset (pageOf q.page))
            (searchOffset (pageOf q.page) + 20)).map
            (fetchAndTranslate fetchObject tr)).filterMap keepWithImage
        currentPage := pageOf q.page
        totalPages := jsCeilDiv (data.total.getD 0) 20
        departmentId := q.departmentId.getD ""
        keyword := q.keyword.getD ""
        location := q.location.getD ""
        message := none } := by
  have hresp2 : httpGet (buildSearchUrl (q.departmentId.getD "") (q.keyword.getD "")
      (q.location.getD "")) = .ok (some data) := hresp
  simp only [searchHandler, hresp2, hids, if_neg hne]

lemma searchHandler_zero_ids (q : SearchQueryParams)
    (httpGet : String → Except String (Option SearchData))
    (fetchObject : Nat → Except FetchError ArtObject) (tr : String → Option String)
    (data : SearchData)
    (hresp : httpGet (searchUrlOfQuery q) = .ok (some data))
    (hids : data.objectIDs = some []) :
    searchHandler q httpGet fetchObject tr = .render
      (emptySearchView (pageOf q.page) (q.departmentId.getD "") (q.keyword.getD "")
        (q.location.getD "")) := by
  have hresp2 : httpGet (buildSearchUrl (q.departmentId.getD "") (q.keyword.getD "")
      (q.location.getD "")) = .ok (some data) := hresp
  simp only [searchHandler, hresp2, hids, List.length_nil, if_pos]

lemma exceptMapM_ok {β γ ε : Type} (f : β → Except ε γ) (g : β → γ) :
    ∀ l : List β, (∀ a ∈ l, f a = .ok (g a)) → l.mapM f = .ok (l.map g) := by
  intro l
  induction l with
  | nil => intro _; rfl
  | cons a l ih =>
    intro h
    rw [List.mapM_cons, h a (List.mem_cons_self a l),
      ih (fun b hb => h b (List.mem_cons_of_mem a hb))]
    rfl

lemma exceptMapM_error {β γ ε : Type} (f : β → Except ε γ) :
    ∀ (l : List β) (a : β), a ∈ l → (∀ c, f a ≠ .ok c) → ∃ e, l.mapM f = .error e := by
  intro l
  induction l with
  | nil => intro a ha; cases ha
  | cons b l ih =>
    intro a ha hbad
    cases hfb : f b with
    | error e => exact ⟨e, by rw [List.mapM_cons, hfb]; rfl⟩
    | ok c =>
      rcases List.mem_cons.mp ha with rfl | hmem
      · exact absurd hfb (hbad c)
      · rcases ih a hmem hbad with ⟨e, he⟩
        exact ⟨e, by rw [List.mapM_cons, hfb, he]; rfl⟩

lemma resultsHandler_ok (pageParam : Option String) (allObjects : List Nat)
    (fetchObject : Nat → Except FetchError ArtObject) (g : Nat → Option ArtObject)
    (hg : ∀ a ∈ jsSlice allObjects (resultsStart (pageOf pageParam))
        (resultsStart (pageOf pageParam) + 10), resultsFetchOne fetchObject a = .ok (g a)) :
    resultsHandler pageParam (.ok allObjects) fetchObject =
      .render ((jsSlice allObjects (resultsStart (pageOf pageParam))
          (resultsStart (pageOf pageParam) + 10)).map g).reduceOption
        (pageOf pageParam) (jsCeilDiv allObjects.length 10) := by
  simp only [resultsHandler]
  rw [exceptMapM_ok _ g _ hg]

lemma resultsHandler_error (pageParam : Option String) (allObjects : List Nat)
    (fetchObject : Nat → Except FetchError ArtObject) (a : Nat)
    (ha : a ∈ jsSlice allObjects (resultsStart (pageOf pageParam))
        (resultsStart (pageOf pageParam) + 10))
    (hbad : ∀ c, resultsFetchOne fetchObject a ≠ .ok c) :
    resultsHandler pageParam (.ok allObjects) fetchObject =
      .serverError "Error al obtener resultados" := by
  simp only [resultsHandler]
  rcases exceptMapM_error _ _ a ha hbad with ⟨e, he⟩
  rw [he]

lemma fanOutSlots_aux {α : Type} (task : Nat → α) (ids : List Nat) :
    ∀ (schedule : List Nat) (slots : List (Option α)), slots.length = ids.length →
      ∀ j : Nat,
        (schedule.foldl
          (fun acc i =>
            match ids[i]? with
            | some theId => acc.set i (some (task theId))
            | none => acc) slots)[j]? =
        if j ∈ schedule ∧ j < ids.length
        then (ids[j]?).map (fun x => some (task x))
        else slots[j]? := by
  intro schedule
  induction schedule with
  | nil =>
    intro slots hlen j
    simp
  | cons i rest ih =>
    intro slots hlen j
    rw [List.foldl_cons]
    have hstep : (match ids[i]? with
        | some theId => slots.set i (some (task theId))
        | none => slots).length = ids.length := by
      cases h : ids[i]? <;> simp [hlen]
    rw [ih _ hstep j]
    by_cases hj : j ∈ rest ∧ j < ids.length
    · rw [if_pos hj, if_pos ⟨List.mem_cons_of_mem i hj.1, hj.2⟩]
    · rw [if_neg hj]
      by_cases hij : i = j
      · subst hij
        by_cases hlt : i < ids.length
        · have hidv : ∃ v, ids[i]? = some v := by
            exact ⟨ids[i], List.getElem?_eq_getElem hlt⟩
          rcases hidv with ⟨v, hv⟩
          rw [if_pos ⟨List.mem_cons_self i rest, hlt⟩, hv]
          simp only [hv]
          rw [List.getElem?_set_eq_of_lt]
          · rfl
          · rw [hlen]; exact hlt
        · have hnone : ids[i]? = none := by
            rw [List.getElem?_eq_none]
            omega
          rw [if_neg (by intro hcon; exact hlt hcon.2)]
          simp only [hnone]
      · have hnotin : ¬ (j ∈ i :: rest ∧ j < ids.length) := by
          intro hcon
          rcases List.mem_cons.mp hcon.1 with heq | hmem
          · exact hij heq.symm
          · exact hj ⟨hmem, hcon.2⟩
        rw [if_neg hnotin]
        cases hv : ids[i]? with
        | none => rfl
        | some v =>
          simp only
          exact List.getElem?_set_ne hij

lemma fanOutSlots_perm {α : Type} (task : Nat → α) (ids : List Nat) (schedule : List Nat)
    (h : schedule.Perm (List.range ids.length)) :
    fanOutSlots task ids schedule = (ids.map task).map some := by
  apply List.ext_getElem?
  intro j
  rw [fanOutSlots, fanOutSlots_aux task ids schedule _ (by simp) j]
  by_cases hj : j < ids.length
  · have hmem : j ∈ schedule := by
      rw [h.mem_iff]
      exact List.mem_range.mpr hj
    rw [if_pos ⟨hmem, hj⟩]
    rw [List.getElem?_map, List.getElem?_map]
    cases hv : ids[j]? with
    | none => rfl
    | some v => rfl
  · have hmem : j ∉ schedule := by
      intro hm
      exact hj (List.mem_range.mp (h.mem_iff.mp hm))
    rw [if_neg (by intro hcon; exact hj hcon.2)]
    have h1 : ((List.replicate ids.length (none : Option α)))[j]? = none := by
      rw [List.getElem?_eq_none]
      simpa using not_lt.mp hj
    have h2 : (((ids.map task).map some))[j]? = none := by
      rw [List.getElem?_eq_none]
      simpa using not_lt.mp hj
    rw [h1, h2]

lemma filterMap_keepWithImage_sublist (f : Nat → Option ArtObject) (l : List Nat) :
    List.Sublist (l.filterMap (fun i => keepWithImage (f i))) (l.filterMap f) := by
  induction l with
  | nil => simp
  | cons a l ih =>
    rw [List.filterMap_cons, List.filterMap_cons]
    cases hfa : f a with
    | none => simpa [keepWithImage, hfa] using ih
    | some obj =>
      by_cases himg : jsTruthy obj.primaryImage
      · simp only [keepWithImage, hfa, himg, if_pos]
        exact List.Sublist.cons₂ obj ih
      · simp only [keepWithImage, hfa, himg, if_neg, Bool.false_eq_true, not_false_iff]
        exact List.Sublist.cons obj ih

lemma buildSearchUrl_renders (d k l : String) :
    buildSearchUrl d k l = renderSearchUrl (searchUrlParams d k l) := by
  by_cases hd : d = "" <;> by_cases hk : k = "" <;> by_cases hl : l = "" <;>
    (apply String.ext
     simp only [buildSearchUrl, searchUrlParams, renderSearchUrl, hd, hk, hl, if_pos, if_neg,
       if_true, if_false, eq_self_iff_true, List.map, joinAmp, List.append_nil, List.nil_append,
       List.cons_append, List.singleton_append, String.data_append, List.append_assoc]
    )

lemma keepWithImage_some {r : Option ArtObject} {obj : ArtObject}
    (h : keepWithImage r = some obj) : jsTruthy obj.primaryImage = true := by
  cases r with
  | none => simp [keepWithImage] at h
  | some o =>
    by_cases himg : jsTruthy o.primaryImage = true
    · rw [keepWithImage, if_pos himg] at h
      cases h
      exact himg
    · rw [keepWithImage, if_neg himg] at h
      cases h

lemma searchHandler_renders (q : SearchQueryParams)
    (httpGet : String → Except String (Option SearchData))
    (fetchObject : Nat → Except FetchError ArtObject) (tr : String → Option String)
    (d : Option SearchData) (hd : httpGet (searchUrlOfQuery q) = .ok d) :
    ∃ v, searchHandler q httpGet fetchObject tr = .render v := by
  have hd2 : httpGet (buildSearchUrl (q.departmentId.getD "") (q.keyword.getD "")
      (q.location.getD "")) = .ok d := hd
  cases d with
  | none =>
    exact ⟨emptySearchView (pageOf q.page) (q.departmentId.getD "") (q.keyword.getD "")
      (q.location.getD ""), by simp only [searchHandler, hd2]⟩
  | some data =>
    cases hids : data.objectIDs with
    | none =>
      exact ⟨emptySearchView (pageOf q.page) (q.departmentId.getD "") (q.keyword.getD "")
        (q.location.getD ""), by simp only [searchHandler, hd2, hids]⟩
    | some ids =>
      by_cases hlen : ids.length = 0
      · exact ⟨emptySearchView (pageOf q.page) (q.departmentId.getD "") (q.keyword.getD "")
          (q.location.getD ""), by simp only [searchHandler, hd2, hids, if_pos hlen]⟩
      · exact ⟨_, searchHandler_ok_some q httpGet fetchObject tr data ids hd hids hlen⟩

/-! ### Claims -/

/-- C4: for every page number `p ≥ 1` and the fixed page sizes (20 on the
search route, 10 on the results route), the slice offset equals
`(p - 1) * pageSize`, the id slice taken is the window
`[offset, offset + pageSize)` of the id sequence, and `totalPages` is the
ceiling of `total / pageSize`; in particular `total = 45` with page size 20
gives 3 pages, and page 2 with page size 20 gives offset 20. -/
theorem c4_pagination_arithmetic (p : Int) (hp : 1 ≤ p) (ids : List Nat) (t : Nat) :
    searchOffset p = (p - 1) * 20 ∧
    resultsStart p = (p - 1) * 10 ∧
    jsSlice ids (searchOffset p) (searchOffset p + 20) =
      (ids.drop (searchOffset p).toNat).take 20 ∧
    jsSlice ids (resultsStart p) (resultsStart p + 10) =
      (ids.drop (resultsStart p).toNat).take 10 ∧
    jsCeilDiv t 20 = ⌈(t : ℚ) / 20⌉ ∧
    jsCeilDiv t 10 = ⌈(t : ℚ) / 10⌉ ∧
    jsCeilDiv 45 20 = 3 ∧
    searchOffset 2 = 20 := by
  have h20 : (0 : Int) ≤ searchOffset p := by
    rw [searchOffset]
    nlinarith
  have h10 : (0 : Int) ≤ resultsStart p := by
    rw [resultsStart]
    nlinarith
  refine ⟨rfl, rfl, ?_, ?_, ?_, ?_, ?_, by decide⟩
  · have h := jsSlice_nonneg ids (searchOffset p) 20 h20
    norm_cast at h
  · have h := jsSlice_nonneg ids (resultsStart p) 10 h10
    norm_cast at h
  · rw [jsCeilDiv, ratCeil_eq_intCeil]
    norm_num
  · rw [jsCeilDiv, ratCeil_eq_intCeil]
    norm_num
  · rw [jsCeilDiv_eq 45 20 (by decide)]
    decide

/-- Witness for C4 at page 2, a concrete id list and total 45. -/
theorem c4_pagination_arithmetic_witness :
    (1 : Int) ≤ 2 ∧
    (searchOffset 2 = (2 - 1) * 20 ∧
      resultsStart 2 = (2 - 1) * 10 ∧
      jsSlice [3, 1, 4] (searchOffset 2) (searchOffset 2 + 20) =
        (([3, 1, 4] : List Nat).drop (searchOffset 2).toNat).take 20 ∧
      jsSlice [3, 1, 4] (resultsStart 2) (resultsStart 2 + 10) =
        (([3, 1, 4] : List Nat).drop (resultsStart 2).toNat).take 10 ∧
      jsCeilDiv 45 20 = ⌈(45 : ℚ) / 20⌉ ∧
      jsCeilDiv 45 10 = ⌈(45 : ℚ) / 10⌉ ∧
      jsCeilDiv 45 20 = 3 ∧
      searchOffset 2 = 20) :=
  ⟨by decide, c4_pagination_arithmetic 2 (by decide) [3, 1, 4] 45⟩

/-- C10: on both paginated routes the page parameter is read as
`parseInt(raw) || 1`: an absent parameter, a parse to NaN and a parse to 0 all
fall back to page 1 (hence offset 0), and any other parse result is used as
is. -/
theorem c10_page_defaulting :
    pageOf none = 1 ∧
    (∀ s, parseIntStr s = none → pageOf (some s) = 1) ∧
    (∀ s, parseIntStr s = some 0 → pageOf (some s) = 1) ∧
    (∀ s n, parseIntStr s = some n → n ≠ 0 → pageOf (some s) = n) ∧
    searchOffset 1 = 0 ∧
    resultsStart 1 = 0 := by
  refine ⟨rfl, ?_, ?_, ?_, by decide, by decide⟩
  · intro s hs
    simp [pageOf, hs]
  · intro s hs
    simp [pageOf, hs]
  · intro s n hs hn
    simp [pageOf, hs, hn]

/-- Witness for C10 on the raw strings "abc", "0" and "3". -/
theorem c10_page_defaulting_witness :
    parseIntStr "abc" = none ∧ pageOf (some "abc") = 1 ∧
    parseIntStr "0" = some 0 ∧ pageOf (some "0") = 1 ∧
    parseIntStr "3" = some 3 ∧ pageOf (some "3") = 3 :=
  ⟨by decide, c10_page_defaulting.2.1 "abc" (by decide),
   by decide, c10_page_defaulting.2.2.1 "0" (by decide),
   by decide, c10_page_defaulting.2.2.2.1 "3" 3 (by decide) (by decide)⟩

/-- C7: when the fetched object has no additionalImages field, or an empty
one, the additional-images route responds with the JSON array `[]` and never
with an error response. -/
theorem c7_additional_images_empty (fetchResult : Except FetchError ArtObject)
    (obj : ArtObject) (hok : fetchResult = .ok obj)
    (hempty : obj.additionalImages = none ∨ obj.additionalImages = some []) :
    additionalImagesHandler fetchResult = .jsonArr [] := by
  subst hok
  rcases hempty with h | h <;> simp [additionalImagesHandler, h]

/-- Witness for C7 on an object with an absent field and one with an empty
field. -/
theorem c7_additional_images_empty_witness :
    additionalImagesHandler (.ok ⟨none, none, none, some "x.jpg", none⟩) = .jsonArr [] ∧
    additionalImagesHandler (.ok ⟨none, none, none, some "x.jpg", some []⟩) = .jsonArr [] :=
  ⟨c7_additional_images_empty _ _ rfl (Or.inl rfl),
   c7_additional_images_empty _ _ rfl (Or.inr rfl)⟩

/-- C5 (code bug): the claim says a GET on the results route renders a
paginated listing over the full catalog with totalPages recomputed from the
full id-list length; but `getAllObjectsFromAPI` is called at src/index.js line
159 without being defined anywhere in the repository, so every request to the
route throws a ReferenceError and is answered with the 500 response of the
catch block, for any page parameter and any state of the upstream API. -/
theorem c5_results_route_broken (pageParam : Option String)
    (fetchObject : Nat → Except FetchError ArtObject) :
    resultsHandler pageParam getAllObjectsFromAPI fetchObject =
      .serverError "Error al obtener resultados" := rfl

/-- C6: when the search response carries zero object ids, the search route
short-circuits to the empty render: zero objects, the fixed non-empty
explanatory message, and a result that does not depend on the object-detail
fetch oracle or on the translation oracle (no such call is consulted). -/
theorem c6_zero_ids_short_circuit (q : SearchQueryParams)
    (httpGet : String → Except String (Option SearchData))
    (fetchObject fetchObject2 : Nat → Except FetchError ArtObject)
    (tr tr2 : String → Option String) (data : SearchData)
    (hresp : httpGet (searchUrlOfQuery q) = .ok (some data))
    (hids : data.objectIDs = some []) :
    searchHandler q httpGet fetchObject tr =
      .render (emptySearchView (pageOf q.page) (q.departmentId.getD "")
        (q.keyword.getD "") (q.location.getD "")) ∧
    (emptySearchView (pageOf q.page) (q.departmentId.getD "")
      (q.keyword.getD "") (q.location.getD "")).objects = [] ∧
    (emptySearchView (pageOf q.page) (q.departmentId.getD "")
      (q.keyword.getD "") (q.location.getD "")).message =
        some "No se encontraron resultados para los filtros aplicados." ∧
    "No se encontraron resultados para los filtros aplicados." ≠ "" ∧
    searchHandler q httpGet fetchObject tr = searchHandler q httpGet fetchObject2 tr2 := by
  have h1 := searchHandler_zero_ids q httpGet fetchObject tr data hresp hids
  have h2 := searchHandler_zero_ids q httpGet fetchObject2 tr2 data hresp hids
  exact ⟨h1, rfl, rfl, by decide, h1.trans h2.symm⟩

/-- Witness for C6 on a concrete request with an empty id array. -/
theorem c6_zero_ids_short_circuit_witness :
    searchHandler ⟨none, none, none, none⟩ (fun _ => .ok (some ⟨some [], some 0⟩))
        (fun _ => .error .network) (fun _ => none) =
      .render (emptySearchView (pageOf none) ((none : Option String).getD "")
        ((none : Option String).getD "") ((none : Option String).getD "")) ∧
    (emptySearchView (pageOf none) ((none : Option String).getD "")
      ((none : Option String).getD "") ((none : Option String).getD "")).objects = [] ∧
    (emptySearchView (pageOf none) ((none : Option String).getD "")
      ((none : Option String).getD "") ((none : Option String).getD "")).message =
        some "No se encontraron resultados para los filtros aplicados." ∧
    "No se encontraron resultados para los filtros aplicados." ≠ "" ∧
    searchHandler ⟨none, none, none, none⟩ (fun _ => .ok (some ⟨some [], some 0⟩))
        (fun _ => .error .network) (fun _ => none) =
      searchHandler ⟨none, none, none, none⟩ (fun _ => .ok (some ⟨some [], some 0⟩))
        (fun _ => .ok ⟨none, none, none, none, none⟩) (fun s => some s) :=
  c6_zero_ids_short_circuit ⟨none, none, none, none⟩ (fun _ => .ok (some ⟨some [], some 0⟩))
    (fun _ => .error .network) (fun _ => .ok ⟨none, none, none, none, none⟩)
    (fun _ => none) (fun s => some s) ⟨some [], some 0⟩ rfl rfl

/-- C1 counterexample: a request to the search route in which the only object
is fetched successfully, carries a truthy primaryImage, and whose title
translation fails.  The claim says the object survives with its original
title; on the code the per-object catch returns null and the object is
dropped, so the page renders with zero objects (the request itself still
succeeds). -/
theorem c1_translation_failure_cex :
    searchHandler ⟨none, none, none, none⟩ (fun _ => .ok (some ⟨some [1], some 20⟩))
        (fun _ => .ok ⟨some "The Cat", none, none, some "img.jpg", none⟩) (fun _ => none) =
      .render { objects := [], currentPage := 1, totalPages := 1, departmentId := "",
                keyword := "", location := "", message := none } ∧
    (fun _ : Nat => (.ok ⟨some "The Cat", none, none, some "img.jpg", none⟩ :
        Except FetchError ArtObject)) 1 =
      .ok ⟨some "The Cat", none, none, some "img.jpg", none⟩ ∧
    jsTruthy (some "img.jpg") = true ∧
    (fun _ : String => (none : Option String)) "The Cat" = none := by
  refine ⟨?_, rfl, by decide, rfl⟩
  rw [searchHandler_ok_some ⟨none, none, none, none⟩
    (fun _ => .ok (some ⟨some [1], some 20⟩))
    (fun _ => .ok ⟨some "The Cat", none, none, some "img.jpg", none⟩) (fun _ => none)
    ⟨some [1], some 20⟩ [1] rfl rfl (by decide)]
  have ht : jsCeilDiv ((⟨some [1], some 20⟩ : SearchData).total.getD 0) 20 = 1 := by
    rw [show ((⟨some [1], some 20⟩ : SearchData).total.getD 0) = 20 from rfl,
      jsCeilDiv_eq 20 20 (by decide)]
    decide
  rw [ht]
  decide

/-- C1 amended: on the home route a failed translation falls back to the
original department name and the request still renders; on the search route
the request still renders whatever the translation oracle does, but a failed
translation of a present field does not fall back to the source text: the
per-object catch turns it into null, removing the object from the results. -/
theorem c1_translation_fallback_amended :
    (∀ (tr : String → Option String) (d : Department),
      tr d.displayName = none → translateDepartment tr d = d) ∧
    (∀ (deps : List Department) (tr : String → Option String),
      ∃ rendered, homeHandler (.ok deps) tr = .render rendered ∧
        rendered.length = deps.length) ∧
    (∀ (fetchObject : Nat → Except FetchError ArtObject) (tr : String → Option String)
        (id : Nat) (obj : ArtObject) (s : String),
      fetchObject id = .ok obj → obj.title = some s → s ≠ "" → tr s = none →
      fetchAndTranslate fetchObject tr id = none) ∧
    (∀ (q : SearchQueryParams) (httpGet : String → Except String (Option SearchData))
        (fetchObject : Nat → Except FetchError ArtObject) (tr : String → Option String)
        (d : Option SearchData),
      httpGet (searchUrlOfQuery q) = .ok d →
      ∃ v, searchHandler q httpGet fetchObject tr = .render v) := by
  refine ⟨?_, ?_, ?_, ?_⟩
  · intro tr d htr
    rw [translateDepartment, htr]
  · intro deps tr
    exact ⟨deps.map (translateDepartment tr), rfl, List.length_map deps _⟩
  · intro fetchObject tr id obj s hok htitle hs htr
    simp only [fetchAndTranslate, hok, htitle, translateField, if_neg hs, htr]
  · intro q httpGet fetchObject tr d hd
    exact searchHandler_renders q httpGet fetchObject tr d hd

/-- Witness for C1 amended at concrete inputs. -/
theorem c1_translation_fallback_amended_witness :
    translateDepartment (fun _ => none) ⟨1, "Paintings"⟩ = ⟨1, "Paintings"⟩ ∧
    (∃ rendered, homeHandler (.ok [⟨1, "Paintings"⟩]) (fun _ => none) = .render rendered ∧
      rendered.length = [(⟨1, "Paintings"⟩ : Department)].length) ∧
    fetchAndTranslate (fun _ => .ok ⟨some "Cat", none, none, some "i.jpg", none⟩)
      (fun _ => none) 7 = none ∧
    (∃ v, searchHandler ⟨none, none, none, none⟩ (fun _ => .ok none)
      (fun _ => .error .network) (fun _ => none) = .render v) :=
  ⟨c1_translation_fallback_amended.1 (fun _ => none) ⟨1, "Paintings"⟩ rfl,
   c1_translation_fallback_amended.2.1 [⟨1, "Paintings"⟩] (fun _ => none),
   c1_translation_fallback_amended.2.2.1 (fun _ => .ok ⟨some "Cat", none, none, some "i.jpg", none⟩)
     (fun _ => none) 7 ⟨some "Cat", none, none, some "i.jpg", none⟩ "Cat" rfl rfl (by decide) rfl,
   c1_translation_fallback_amended.2.2.2 ⟨none, none, none, none⟩ (fun _ => .ok none)
     (fun _ => .error .network) (fun _ => none) none rfl⟩

/-- C2 counterexample: in the search route batch over ids 1 and 2, the fetch
of id 1 fails with a non-404 error (a network failure).  The claim says the
whole request must fail with HTTP 500; on the code the per-object catch turns
any error into null, so the request succeeds and renders the other object. -/
theorem c2_batch_error_cex :
    searchHandler ⟨none, none, none, none⟩ (fun _ => .ok (some ⟨some [1, 2], some 2⟩))
        (fun id => if id = 1 then .error .network
          else .ok ⟨none, none, none, some "b.jpg", none⟩) (fun s => some s) =
      .render { objects := [⟨none, none, none, some "b.jpg", none⟩], currentPage := 1,
                totalPages := 1, departmentId := "", keyword := "", location := "",
                message := none } ∧
    (fun id : Nat => if id = 1 then (.error .network : Except FetchError ArtObject)
      else .ok ⟨none, none, none, some "b.jpg", none⟩) 1 = .error .network ∧
    FetchError.network ≠ .httpStatus 404 := by
  refine ⟨?_, rfl, by decide⟩
  rw [searchHandler_ok_some ⟨none, none, none, none⟩
    (fun _ => .ok (some ⟨some [1, 2], some 2⟩))
    (fun id => if id = 1 then .error .network
      else .ok ⟨none, none, none, some "b.jpg", none⟩) (fun s => some s)
    ⟨some [1, 2], some 2⟩ [1, 2] rfl rfl (by decide)]
  have ht : jsCeilDiv ((⟨some [1, 2], some 2⟩ : SearchData).total.getD 0) 20 = 1 := by
    rw [show ((⟨some [1, 2], some 2⟩ : SearchData).total.getD 0) = 2 from rfl,
      jsCeilDiv_eq 2 20 (by decide)]
    decide
  rw [ht]
  decide

/-- C2 amended: the 404-drop versus fatal-propagation policy holds only on the
results route: there a 404 yields null and is dropped while every other error
rejects the batch and is answered with the 500 message; a batch whose per-id
results all resolve renders the resolved objects in input order.  On the
search route any per-id error, 404 or not, yields null for that id only and
the request still renders. -/
theorem c2_batch_error_policy_amended :
    (∀ (fetchObject : Nat → Except FetchError ArtObject) (id : Nat),
      fetchObject id = .error (.httpStatus 404) → resultsFetchOne fetchObject id = .ok none) ∧
    (∀ (fetchObject : Nat → Except FetchError ArtObject) (id : Nat) (e : FetchError),
      fetchObject id = .error e → e ≠ .httpStatus 404 →
      resultsFetchOne fetchObject id = .error e) ∧
    (∀ (pageParam : Option String) (allObjects : List Nat)
        (fetchObject : Nat → Except FetchError ArtObject) (a : Nat) (e : FetchError),
      a ∈ jsSlice allObjects (resultsStart (pageOf pageParam))
          (resultsStart (pageOf pageParam) + 10) →
      fetchObject a = .error e → e ≠ .httpStatus 404 →
      resultsHandler pageParam (.ok allObjects) fetchObject =
        .serverError "Error al obtener resultados") ∧
    (∀ (pageParam : Option String) (allObjects : List Nat)
        (fetchObject : Nat → Except FetchError ArtObject) (g : Nat → Option ArtObject),
      (∀ a ∈ jsSlice allObjects (resultsStart (pageOf pageParam))
          (resultsStart (pageOf pageParam) + 10),
        resultsFetchOne fetchObject a = .ok (g a)) →
      resultsHandler pageParam (.ok allObjects) fetchObject =
        .render ((jsSlice allObjects (resultsStart (pageOf pageParam))
            (resultsStart (pageOf pageParam) + 10)).map g).reduceOption
          (pageOf pageParam) (jsCeilDiv allObjects.length 10)) ∧
    (∀ (fetchObject : Nat → Except FetchError ArtObject) (tr : String → Option String)
        (id : Nat) (e : FetchError),
      fetchObject id = .error e → fetchAndTranslate fetchObject tr id = none) ∧
    (∀ (q : SearchQueryParams) (httpGet : String → Except String (Option SearchData))
        (fetchObject : Nat → Except FetchError ArtObject) (tr : String → Option String)
        (d : Option SearchData),
      httpGet (searchUrlOfQuery q) = .ok d →
      ∃ v, searchHandler q httpGet fetchObject tr = .render v) := by
  refine ⟨?_, ?_, ?_, ?_, ?_, ?_⟩
  · intro fetchObject id he
    simp [resultsFetchOne, he]
  · intro fetchObject id e he hne
    simp only [resultsFetchOne, he, if_neg hne]
  · intro pageParam allObjects fetchObject a e ha he hne
    apply resultsHandler_error pageParam allObjects fetchObject a ha
    intro c
    simp only [resultsFetchOne, he, if_neg hne]
    intro hcon
    cases hcon
  · intro pageParam allObjects fetchObject g hg
    exact resultsHandler_ok pageParam allObjects fetchObject g hg
  · intro fetchObject tr id e he
    simp only [fetchAndTranslate, he]
  · intro q httpGet fetchObject tr d hd
    exact searchHandler_renders q httpGet fetchObject tr d hd

/-- Witness for C2 amended: a 404 on id 1 is dropped while id 2 renders, a
network error rejects the results batch, and the search route swallows the
same network error. -/
theorem c2_batch_error_policy_amended_witness :
    resultsFetchOne (fun _ => .error (.httpStatus 404)) 1 = .ok none ∧
    resultsFetchOne (fun _ => .error .network) 1 = .error .network ∧
    resultsHandler none (.ok [1]) (fun _ => .error .network) =
      .serverError "Error al obtener resultados" ∧
    resultsHandler none (.ok [1, 2])
        (fun id => if id = 1 then .error (.httpStatus 404)
          else .ok ⟨none, none, none, some "b.jpg", none⟩) =
      .render ((jsSlice [1, 2] (resultsStart (pageOf none))
          (resultsStart (pageOf none) + 10)).map
            (fun id => if id = 1 then none
              else some ⟨none, none, none, some "b.jpg", none⟩)).reduceOption
        (pageOf none) (jsCeilDiv ([1, 2] : List Nat).length 10) ∧
    fetchAndTranslate (fun _ => .error .network) (fun s => some s) 1 = none ∧
    (∃ v, searchHandler ⟨none, none, none, none⟩ (fun _ => .ok (some ⟨some [1], some 1⟩))
      (fun _ => .error .network) (fun s => some s) = .render v) := by
  refine ⟨c2_batch_error_policy_amended.1 (fun _ => .error (.httpStatus 404)) 1 rfl,
    c2_batch_error_policy_amended.2.1 (fun _ => .error .network) 1 .network rfl (by decide),
    c2_batch_error_policy_amended.2.2.1 none [1] (fun _ => .error .network) 1 .network
      (by decide) rfl (by decide),
    c2_batch_error_policy_amended.2.2.2.1 none [1, 2]
      (fun id => if id = 1 then .error (.httpStatus 404)
        else .ok ⟨none, none, none, some "b.jpg", none⟩)
      (fun id => if id = 1 then none else some ⟨none, none, none, some "b.jpg", none⟩) ?_,
    c2_batch_error_policy_amended.2.2.2.2.1 (fun _ => .error .network) (fun s => some s) 1
      .network rfl,
    c2_batch_error_policy_amended.2.2.2.2.2 ⟨none, none, none, none⟩
      (fun _ => .ok (some ⟨some [1], some 1⟩)) (fun _ => .error .network) (fun s => some s)
      (some ⟨some [1], some 1⟩) rfl⟩
  intro a ha
  by_cases h1 : a = 1
  · subst h1
    rfl
  · simp only [resultsFetchOne, if_neg h1]

/-- C3 counterexample: the results route renders an object whose primaryImage
field is absent.  The claim says every object missing primaryImage is absent
from the rendered set of both aggregation flows; the code filters on
primaryImage only on the search route, while the results route keeps every
non-null object (and applies no translation at all). -/
theorem c3_primary_image_filter_cex :
    resultsHandler none (.ok [7]) (fun _ => .ok ⟨some "t", none, none, none, none⟩) =
      .render [⟨some "t", none, none, none, none⟩] 1 1 ∧
    (⟨some "t", none, none, none, none⟩ : ArtObject).primaryImage = none := by
  refine ⟨?_, rfl⟩
  rw [resultsHandler_ok none [7] (fun _ => .ok ⟨some "t", none, none, none, none⟩)
    (fun _ => some ⟨some "t", none, none, none, none⟩) (fun a _ => rfl)]
  have ht : jsCeilDiv ([7] : List Nat).length 10 = 1 := by
    rw [show ([7] : List Nat).length = 1 from rfl, jsCeilDiv_eq 1 10 (by decide)]
    decide
  rw [ht]
  decide

/-- C3 amended: on the search route every rendered object has a truthy
primaryImage, the filter being applied to the translated per-id results; the
results route does not filter on primaryImage. -/
theorem c3_primary_image_filter_amended (q : SearchQueryParams)
    (httpGet : String → Except String (Option SearchData))
    (fetchObject : Nat → Except FetchError ArtObject) (tr : String → Option String)
    (v : SearchView) (hv : searchHandler q httpGet fetchObject tr = .render v) :
    ∀ obj ∈ v.objects, jsTruthy obj.primaryImage = true := by
  intro obj hobj
  rcases hr : httpGet (searchUrlOfQuery q) with e | d
  · have : searchHandler q httpGet fetchObject tr =
        .serverError ("Error al recuperar los objetos de arte: " ++ e) := by
      have hr2 : httpGet (buildSearchUrl (q.departmentId.getD "") (q.keyword.getD "")
          (q.location.getD "")) = .error e := hr
      simp only [searchHandler, hr2]
    rw [this] at hv
    cases hv
  · cases d with
    | none =>
      have hempty := searchHandler_renders q httpGet fetchObject tr none hr
      have hr2 : httpGet (buildSearchUrl (q.departmentId.getD "") (q.keyword.getD "")
          (q.location.getD "")) = .ok none := hr
      have : searchHandler q httpGet fetchObject tr = .render (emptySearchView (pageOf q.page)
          (q.departmentId.getD "") (q.keyword.getD "") (q.location.getD "")) := by
        simp only [searchHandler, hr2]
      rw [this] at hv
      cases hv
      simp [emptySearchView] at hobj
    | some data =>
      have hr2 : httpGet (buildSearchUrl (q.departmentId.getD "") (q.keyword.getD "")
          (q.location.getD "")) = .ok (some data) := hr
      cases hids : data.objectIDs with
      | none =>
        have : searchHandler q httpGet fetchObject tr = .render (emptySearchView (pageOf q.page)
            (q.departmentId.getD "") (q.keyword.getD "") (q.location.getD "")) := by
          simp only [searchHandler, hr2, hids]
        rw [this] at hv
        cases hv
        simp [emptySearchView] at hobj
      | some ids =>
        by_cases hlen : ids.length = 0
        · have : searchHandler q httpGet fetchObject tr = .render (emptySearchView (pageOf q.page)
              (q.departmentId.getD "") (q.keyword.getD "") (q.location.getD "")) := by
            simp only [searchHandler, hr2, hids, if_pos hlen]
          rw [this] at hv
          cases hv
          simp [emptySearchView] at hobj
        · rw [searchHandler_ok_some q httpGet fetchObject tr data ids hr hids hlen] at hv
          cases hv
          rcases List.mem_filterMap.mp hobj with ⟨r, _, hkeep⟩
          exact keepWithImage_some hkeep

/-- Witness for C3 amended: a concrete search render with one object whose
primaryImage is the non-empty string img.jpg. -/
theorem c3_primary_image_filter_amended_witness :
    jsTruthy (ArtObject.mk none none none (some "img.jpg") none).primaryImage = true := by
  have hv : searchHandler ⟨none, none, none, none⟩ (fun _ => .ok (some ⟨some [5], some 20⟩))
      (fun _ => .ok ⟨none, none, none, some "img.jpg", none⟩) (fun s => some s) =
      .render { objects := [⟨none, none, none, some "img.jpg", none⟩], currentPage := 1,
                totalPages := 1, departmentId := "", keyword := "", location := "",
                message := none } := by
    rw [searchHandler_ok_some ⟨none, none, none, none⟩
      (fun _ => .ok (some ⟨some [5], some 20⟩))
      (fun _ => .ok ⟨none, none, none, some "img.jpg", none⟩) (fun s => some s)
      ⟨some [5], some 20⟩ [5] rfl rfl (by decide)]
    have ht : jsCeilDiv ((⟨some [5], some 20⟩ : SearchData).total.getD 0) 20 = 1 := by
      rw [show ((⟨some [5], some 20⟩ : SearchData).total.getD 0) = 20 from rfl,
        jsCeilDiv_eq 20 20 (by decide)]
      decide
    rw [ht]
    decide
  exact c3_primary_image_filter_amended ⟨none, none, none, none⟩
    (fun _ => .ok (some ⟨some [5], some 20⟩))
    (fun _ => .ok ⟨none, none, none, some "img.jpg", none⟩) (fun s => some s) _ hv
    ⟨none, none, none, some "img.jpg", none⟩ (by simp)

/-- C8: the concurrent fan-out of the search route is schedule independent
and order preserving: running the per-id tasks in any completion order
(any permutation of the slot indices) fills the slots with exactly the
results of the input id slice in input order, and the rendered objects form
an order-preserving subsequence of the per-id results of the input slice. -/
theorem c8_search_order_preserved (q : SearchQueryParams)
    (httpGet : String → Except String (Option SearchData))
    (fetchObject : Nat → Except FetchError ArtObject) (tr : String → Option String)
    (data : SearchData) (allIds : List Nat) (schedule : List Nat)
    (hresp : httpGet (searchUrlOfQuery q) = .ok (some data))
    (hids : data.objectIDs = some allIds)
    (hne : allIds.length ≠ 0)
    (hsched : schedule.Perm (List.range (jsSlice allIds (searchOffset (pageOf q.page))
        (searchOffset (pageOf q.page) + 20)).length)) :
    fanOutSlots (fetchAndTranslate fetchObject tr)
        (jsSlice allIds (searchOffset (pageOf q.page)) (searchOffset (pageOf q.page) + 20))
        schedule =
      ((jsSlice allIds (searchOffset (pageOf q.page)) (searchOffset (pageOf q.page) + 20)).map
        (fetchAndTranslate fetchObject tr)).map some ∧
    ∀ v, searchHandler q httpGet fetchObject tr = .render v →
      List.Sublist v.objects
        ((jsSlice allIds (searchOffset (pageOf q.page)) (searchOffset (pageOf q.page) + 20)).filterMap
          (fetchAndTranslate fetchObject tr)) := by
  constructor
  · exact fanOutSlots_perm _ _ _ hsched
  · intro v hv
    rw [searchHandler_ok_some q httpGet fetchObject tr data allIds hresp hids hne] at hv
    cases hv
    rw [List.filterMap_map]
    have hcomp : (keepWithImage ∘ fetchAndTranslate fetchObject tr) =
        fun i => keepWithImage (fetchAndTranslate fetchObject tr i) := rfl
    rw [hcomp]
    exact filterMap_keepWithImage_sublist (fetchAndTranslate fetchObject tr) _

/-- Witness for C8 on a two-element slice executed in reversed completion
order. -/
theorem c8_search_order_preserved_witness :
    fanOutSlots (fetchAndTranslate (fun _ => .ok ⟨none, none, none, some "a.jpg", none⟩)
        (fun s => some s))
        (jsSlice [5, 6] (searchOffset (pageOf (none : Option String)))
          (searchOffset (pageOf (none : Option String)) + 20)) [1, 0] =
      ((jsSlice [5, 6] (searchOffset (pageOf (none : Option String)))
          (searchOffset (pageOf (none : Option String)) + 20)).map
        (fetchAndTranslate (fun _ => .ok ⟨none, none, none, some "a.jpg", none⟩)
          (fun s => some s))).map some ∧
    ∀ v, searchHandler ⟨none, none, none, none⟩ (fun _ => .ok (some ⟨some [5, 6], some 2⟩))
        (fun _ => .ok ⟨none, none, none, some "a.jpg", none⟩) (fun s => some s) = .render v →
      List.Sublist v.objects
        ((jsSlice [5, 6] (searchOffset (pageOf (none : Option String)))
            (searchOffset (pageOf (none : Option String)) + 20)).filterMap
          (fetchAndTranslate (fun _ => .ok ⟨none, none, none, some "a.jpg", none⟩)
            (fun s => some s))) :=
  c8_search_order_preserved ⟨none, none, none, none⟩
    (fun _ => .ok (some ⟨some [5, 6], some 2⟩))
    (fun _ => .ok ⟨none, none, none, some "a.jpg", none⟩) (fun s => some s)
    ⟨some [5, 6], some 2⟩ [5, 6] [1, 0] rfl rfl (by decide) (by decide)

/-- C9 counterexample: a request whose departmentId parameter is present but
empty (the query string `departmentId=`).  The claim says the parameter is
appended exactly when present in the request; the code tests truthiness, so
the present-but-empty parameter is omitted from the upstream URL. -/
theorem c9_query_params_cex :
    (SearchQueryParams.mk (some "") none none none).departmentId.isSome = true ∧
    ((searchUrlParams ((SearchQueryParams.mk (some "") none none none).departmentId.getD "")
        ((SearchQueryParams.mk (some "") none none none).keyword.getD "")
        ((SearchQueryParams.mk (some "") none none none).location.getD "")).any
      (fun kv => kv.1 == "departmentId")) = false ∧
    searchUrlOfQuery (SearchQueryParams.mk (some "") none none none) =
      renderSearchUrl (searchUrlParams "" "" "") := by
  refine ⟨rfl, by decide, ?_⟩
  rw [show searchUrlOfQuery (SearchQueryParams.mk (some "") none none none) =
    buildSearchUrl "" "" "" from rfl]
  exact buildSearchUrl_renders "" "" ""

/-- C9 amended: the search URL always carries `hasImages=true`, and each of
the three filters is appended as a query parameter exactly when it is present
in the request WITH a non-empty value (a present but empty parameter is
treated like an absent one and omitted, not wildcarded). -/
theorem c9_query_params_amended :
    (∀ d k l, buildSearchUrl d k l = renderSearchUrl (searchUrlParams d k l)) ∧
    (∀ q : SearchQueryParams, searchUrlOfQuery q =
      renderSearchUrl (searchUrlParams (q.departmentId.getD "") (q.keyword.getD "")
        (q.location.getD ""))) ∧
    (∀ q : SearchQueryParams,
      ((searchUrlParams (q.departmentId.getD "") (q.keyword.getD "")
          (q.location.getD "")).any (fun kv => kv.1 == "departmentId")) =
        jsTruthy q.departmentId) ∧
    (∀ q : SearchQueryParams,
      ((searchUrlParams (q.departmentId.getD "") (q.keyword.getD "")
          (q.location.getD "")).any (fun kv => kv.1 == "q")) = jsTruthy q.keyword) ∧
    (∀ q : SearchQueryParams,
      ((searchUrlParams (q.departmentId.getD "") (q.keyword.getD "")
          (q.location.getD "")).any (fun kv => kv.1 == "geoLocation")) =
        jsTruthy q.location) ∧
    (∀ d k l, ("hasImages", "true") ∈ searchUrlParams d k l) := by
  have hkeys : (("hasImages" : String) == "departmentId") = false ∧
      (("departmentId" : String) == "departmentId") = true ∧
      (("q" : String) == "departmentId") = false ∧
      (("geoLocation" : String) == "departmentId") = false ∧
      (("hasImages" : String) == "q") = false ∧
      (("departmentId" : String) == "q") = false ∧
      (("q" : String) == "q") = true ∧
      (("geoLocation" : String) == "q") = false ∧
      (("hasImages" : String) == "geoLocation") = false ∧
      (("departmentId" : String) == "geoLocation") = false ∧
      (("q" : String) == "geoLocation") = false ∧
      (("geoLocation" : String) == "geoLocation") = true := by decide
  obtain ⟨k1, k2, k3, k4, k5, k6, k7, k8, k9, k10, k11, k12⟩ := hkeys
  refine ⟨buildSearchUrl_renders, ?_, ?_, ?_, ?_, ?_⟩
  · intro q
    exact buildSearchUrl_renders (q.departmentId.getD "") (q.keyword.getD "")
      (q.location.getD "")
  · intro q
    rcases q with ⟨dep, kw, loc, pg⟩
    have hdep : jsTruthy dep = ((dep.getD "") != "") := by
      cases dep with
      | none => rfl
      | some s => rfl
    rw [hdep]
    by_cases hd : dep.getD "" = "" <;>
      by_cases hk : kw.getD "" = "" <;>
      by_cases hl : loc.getD "" = "" <;>
        simp [searchUrlParams, hd, hk, hl, k1, k2, k3, k4]
  · intro q
    rcases q with ⟨dep, kw, loc, pg⟩
    have hkw : jsTruthy kw = ((kw.getD "") != "") := by
      cases kw with
      | none => rfl
      | some s => rfl
    rw [hkw]
    by_cases hd : dep.getD "" = "" <;>
      by_cases hk : kw.getD "" = "" <;>
      by_cases hl : loc.getD "" = "" <;>
        simp [searchUrlParams, hd, hk, hl, k5, k6, k7, k8]
  · intro q
    rcases q with ⟨dep, kw, loc, pg⟩
    have hloc : jsTruthy loc = ((loc.getD "") != "") := by
      cases loc with
      | none => rfl
      | some s => rfl
    rw [hloc]
    by_cases hd : dep.getD "" = "" <;>
      by_cases hk : kw.getD "" = "" <;>
      by_cases hl : loc.getD "" = "" <;>
        simp [searchUrlParams, hd, hk, hl, k9, k10, k11, k12]
  · intro d k l
    simp [searchUrlParams]

/-- Witness for C9 amended on a concrete request carrying only a keyword. -/
theorem c9_query_params_amended_witness :
    searchUrlOfQuery (SearchQueryParams.mk none (some "cat") none none) =
      renderSearchUrl (searchUrlParams ((none : Option String).getD "")
        (((some "cat" : Option String)).getD "") ((none : Option String).getD "")) ∧
    ((searchUrlParams ((none : Option String).getD "")
        (((some "cat" : Option String)).getD "") ((none : Option String).getD "")).any
      (fun kv => kv.1 == "q")) = jsTruthy (some "cat") ∧
    ("hasImages", "true") ∈ searchUrlParams "" "cat" "" :=
  ⟨c9_query_params_amended.2.1 (SearchQueryParams.mk none (some "cat") none none),
   c9_query_params_amended.2.2.2.1 (SearchQueryParams.mk none (some "cat") none none),
   c9_query_params_amended.2.2.2.2.2 "" "cat" ""⟩
